import Mathlib

/-!
Verification of the audio capture and WAV encoding pipeline of
`src/frontend/src/hooks/useAudioRecorder.js`.

The encoder (`encodeWAV`, `floatTo16BitPCM`, `writeString`) is embedded as
pure functions over rationals and byte lists.  Samples are modelled as ℚ:
the JavaScript code multiplies a Float32 sample (24-bit mantissa) by 32767
or 32768 in double precision, which is exact, and `DataView.setInt16`
truncates toward zero; all of this is exactly representable over ℚ.

The recording hook itself is embedded as an explicit state machine
(`RecState`) with the hook's refs and React state as fields, plus ghost
counters that count completion emissions (`setAudioBlob` with a non-null
value, `setError` with a non-null value) and device releases (executions of
the track-stopping block in `stopRecording`).
-/

namespace AudioRecorder

/-- Truncation toward zero on ℚ: the conversion applied by JavaScript's
`DataView.setInt16` (ECMAScript `ToInt16`) to a fractional value in range. -/
def truncRat (q : ℚ) : ℤ := q.num.tdiv q.den

/-- Clamping as in `Math.max(-1, Math.min(1, s))` from line 165 of
useAudioRecorder.js. -/
def clamp (s : ℚ) : ℚ := max (-1) (min 1 s)

/-- The per-sample conversion in the loop body of `floatTo16BitPCM`
(lines 165–167): clamp to [-1, 1], scale negatives by 0x8000 and
non-negatives by 0x7FFF, truncate toward zero. -/
def quantizeSample (s : ℚ) : ℤ :=
  let c := clamp s
  if c < 0 then truncRat (c * 32768) else truncRat (c * 32767)

/-- Little-endian 16-bit unsigned serialization (`DataView.setUint16`);
the byte extraction takes the value modulo 2^16 as the view does. -/
def uint16LE (n : ℕ) : List ℕ := [n % 256, n / 256 % 256]

/-- Little-endian 32-bit unsigned serialization (`DataView.setUint32`);
the byte extraction takes the value modulo 2^32 as the view does. -/
def uint32LE (n : ℕ) : List ℕ :=
  [n % 256, n / 256 % 256, n / 65536 % 256, n / 16777216 % 256]

/-- Little-endian 16-bit signed serialization (`DataView.setInt16`):
two's complement, i.e. the integer modulo 2^16 written little-endian. -/
def int16LE (i : ℤ) : List ℕ := uint16LE (i % 65536).toNat

/-- Embedding of `writeString` (lines 157–161): the code units of an
ASCII tag. -/
def writeString (s : String) : List ℕ := s.data.map Char.toNat

/-- Embedding of `floatTo16BitPCM` (lines 163–169): quantize every sample and write the
results as consecutive little-endian 16-bit words. -/
def floatTo16BitPCM (input : List ℚ) : List ℕ :=
  input.flatMap (fun s => int16LE (quantizeSample s))

/-- Embedding of `encodeWAV` (lines 118–155): flatten the frames, then emit the 44-byte
RIFF/WAVE header followed by the 16-bit PCM samples.  Field offsets and
values follow the source line by line. -/
def encodeWAV (samples : List (List ℚ)) (sampleRate : ℕ) : List ℕ :=
  let buffer := samples.flatten
  let bufferSize := buffer.length * 2
  writeString "RIFF"
    ++ uint32LE (36 + bufferSize)
    ++ writeString "WAVE"
    ++ writeString "fmt "
    ++ uint32LE 16
    ++ uint16LE 1
    ++ uint16LE 1
    ++ uint32LE sampleRate
    ++ uint32LE (sampleRate * 2)
    ++ uint16LE 2
    ++ uint16LE 16
    ++ writeString "data"
    ++ uint32LE bufferSize
    ++ floatTo16BitPCM buffer

/-- Total sample count of a frame buffer: the sum of the frame lengths. -/
def totalSamples (samples : List (List ℚ)) : ℕ :=
  (samples.map List.length).sum

/-- Read an unsigned little-endian 16-bit field at a byte offset. -/
def readU16LE (bytes : List ℕ) (off : ℕ) : ℕ :=
  bytes.getD off 0 + 256 * bytes.getD (off + 1) 0

/-- Read an unsigned little-endian 32-bit field at a byte offset. -/
def readU32LE (bytes : List ℕ) (off : ℕ) : ℕ :=
  readU16LE bytes off + 65536 * readU16LE bytes (off + 2)

/-- Decode the sample-rate field of a WAV container (bytes 24–27). -/
def decodeSampleRate (bytes : List ℕ) : ℕ := readU32LE bytes 24

/-- Decode the channel-count field of a WAV container (bytes 22–23). -/
def decodeNumChannels (bytes : List ℕ) : ℕ := readU16LE bytes 22

/-- Decode the bits-per-sample field of a WAV container (bytes 34–35). -/
def decodeBitsPerSample (bytes : List ℕ) : ℕ := readU16LE bytes 34

/-- Decode the sample count of a 16-bit mono WAV container: the `data`
sub-chunk size (bytes 40–43) divided by the 2 bytes per sample. -/
def decodeSampleCount (bytes : List ℕ) : ℕ := readU32LE bytes 40 / 2

/-- The auto-stop delay armed by `setTimeout` at line 58: 3000 ms. -/
def autoStopDelayMs : ℕ := 3000

/-- The error message set by the catch block at line 62. -/
def micErrorMsg : String := "Could not access microphone. Please check permissions."

/-- State of one `useAudioRecorder` hook instance.  `Option Bool` resource
fields distinguish a null ref (`none`), a live resource (`some true`) and a
released/closed one (`some false`).  `blobEmits`, `errorEmits` and
`releases` are ghost counters: calls of `setAudioBlob` with a non-null
blob, calls of `setError` with a non-null message, and executions of the
track-stopping block of `stopRecording`. -/
structure RecState where
  isRecording : Bool
  audioBlob : Option (List ℕ)
  error : Option String
  audioStream : Option Bool
  streamRef : Option Bool
  audioContextRef : Option Bool
  processorRef : Option Bool
  chunks : List (List ℚ)
  timer : Option ℕ
  isRecordingRef : Bool
  blobEmits : ℕ
  errorEmits : ℕ
  releases : ℕ
deriving Repr, DecidableEq

/-- The hook's initial state: all React state at its `useState` initial
value, all refs null, no session ever run. -/
def initState : RecState :=
  { isRecording := false, audioBlob := none, error := none,
    audioStream := none, streamRef := none, audioContextRef := none,
    processorRef := none, chunks := [], timer := none,
    isRecordingRef := false, blobEmits := 0, errorEmits := 0, releases := 0 }

/-- Lines 18–20 of `startRecording`, executed before the `try` block:
reset the exposed error and blob to null and the chunk buffer to empty. -/
def startReset (s : RecState) : RecState :=
  { s with error := none, audioBlob := none, chunks := [] }

/-- Where the `try` block of `startRecording` throws, when it does:
at `getUserMedia` (line 23), at the `AudioContext` constructor (line 32),
or at a later setup step (lines 35–48), each after the preceding
acquisitions have already succeeded. -/
inductive StartFail
  | atGetUserMedia
  | atAudioContext
  | atSetup
deriving Repr, DecidableEq

/-- The catch block (lines 60–65): set the error message, clear the
recording flags.  It does not touch any resource ref. -/
def catchBlock (s : RecState) : RecState :=
  { s with error := some micErrorMsg, errorEmits := s.errorEmits + 1,
           isRecording := false, isRecordingRef := false }

/-- Embedding of `startRecording` (lines 17–66), parameterized by the point at which the
`try` block throws (`none` = full success).  Each failure case first
performs the acquisitions that preceded the throw, then runs the catch
block. -/
def startRecording (fail : Option StartFail) (s : RecState) : RecState :=
  let s0 := startReset s
  match fail with
  | some StartFail.atGetUserMedia => catchBlock s0
  | some StartFail.atAudioContext =>
      catchBlock { s0 with streamRef := some true, audioStream := some true }
  | some StartFail.atSetup =>
      catchBlock { s0 with streamRef := some true, audioStream := some true,
                           audioContextRef := some true }
  | none =>
      { s0 with streamRef := some true, audioStream := some true,
                audioContextRef := some true, processorRef := some true,
                isRecordingRef := true, isRecording := true,
                timer := some autoStopDelayMs }

/-- Embedding of `stopRecording` (lines 68–94): early return unless `isRecordingRef` is
set; otherwise clear the flags and the timer, disconnect the processor and
close the context when both refs are set, stop the stream tracks when the
stream ref is set, null the exposed stream, then encode the gathered
chunks at 16000 Hz and publish the blob. -/
def stopRecording (s : RecState) : RecState :=
  if s.isRecordingRef = false then s
  else
    let s1 := { s with isRecordingRef := false, isRecording := false,
                       timer := none }
    let s2 :=
      match s1.processorRef, s1.audioContextRef with
      | some _, some _ =>
          { s1 with processorRef := some false, audioContextRef := some false }
      | _, _ => s1
    let s3 :=
      match s2.streamRef with
      | some _ => { s2 with streamRef := some false,
                            releases := s2.releases + 1 }
      | none => s2
    let s4 := { s3 with audioStream := none }
    { s4 with audioBlob := some (encodeWAV s4.chunks 16000),
              blobEmits := s4.blobEmits + 1 }

/-- Events a session can see after a successful start: a frame delivery
from the script processor, an explicit `stopRecording` call, or the
auto-stop timeout firing. -/
inductive Ev
  | frame (f : List ℚ)
  | stop
  | timer
deriving Repr, DecidableEq

/-- Embedding of `onaudioprocess` (lines 40–45): append a clone of the delivered frame
to the chunk buffer, unless `isRecordingRef` is cleared. -/
def deliverFrame (f : List ℚ) (s : RecState) : RecState :=
  if s.isRecordingRef then { s with chunks := s.chunks ++ [f] } else s

/-- The `setTimeout` callback (lines 54–58): fires only while the timer is
armed (a cleared timeout never fires); it calls `stopRecording` when
`isRecordingRef` is still set, and the one-shot timer is spent either way. -/
def timerFire (s : RecState) : RecState :=
  match s.timer with
  | none => s
  | some _ =>
      if s.isRecordingRef then stopRecording s else { s with timer := none }

/-- One event step. -/
def step (s : RecState) : Ev → RecState
  | Ev.frame f => deliverFrame f s
  | Ev.stop => stopRecording s
  | Ev.timer => timerFire s

/-- Run a list of events in order. -/
def run (evs : List Ev) (s : RecState) : RecState := evs.foldl step s

/-- Whether an event triggers the stop path (explicit stop or timeout). -/
def isStopLike : Ev → Bool
  | Ev.frame _ => false
  | Ev.stop => true
  | Ev.timer => true

/-- The frame payload of an event, when it is a frame delivery. -/
def frameOf : Ev → Option (List ℚ)
  | Ev.frame f => some f
  | Ev.stop => none
  | Ev.timer => none

/-- The frames an event sequence delivers before its first stop-like
event: what the spec calls the prefix cut at teardown start. -/
def framesBeforeCut (evs : List Ev) : List (List ℚ) :=
  (evs.takeWhile (fun e => !isStopLike e)).filterMap frameOf

/-- A state holds no capture resources: no live stream, no open context,
no connected processor, no exposed stream. -/
def noResourcesHeld (s : RecState) : Prop :=
  s.streamRef ≠ some true ∧ s.audioContextRef ≠ some true ∧
  s.processorRef ≠ some true ∧ s.audioStream = none

instance (s : RecState) : Decidable (noResourcesHeld s) := by
  unfold noResourcesHeld; infer_instance

/-! ### Lemmas about the encoder -/

theorem totalSamples_eq_length_flatten (samples : List (List ℚ)) :
    totalSamples samples = samples.flatten.length := by
  rw [totalSamples, List.length_flatten]

theorem floatTo16BitPCM_length (l : List ℚ) :
    (floatTo16BitPCM l).length = 2 * l.length := by
  induction l with
  | nil => rfl
  | cons x xs ih =>
      have h1 : floatTo16BitPCM (x :: xs)
          = int16LE (quantizeSample x) ++ floatTo16BitPCM xs := rfl
      have h2 : (int16LE (quantizeSample x)).length = 2 := rfl
      rw [h1, List.length_append, h2, ih, List.length_cons]
      omega

/-- The output of `encodeWAV` written as an explicit cons chain: the
44 header bytes followed by the PCM payload. -/
theorem encodeWAV_cons (samples : List (List ℚ)) (r : ℕ) :
    encodeWAV samples r =
      82 :: 73 :: 70 :: 70 ::
      ((36 + samples.flatten.length * 2) % 256) ::
      ((36 + samples.flatten.length * 2) / 256 % 256) ::
      ((36 + samples.flatten.length * 2) / 65536 % 256) ::
      ((36 + samples.flatten.length * 2) / 16777216 % 256) ::
      87 :: 65 :: 86 :: 69 ::
      102 :: 109 :: 116 :: 32 ::
      16 :: 0 :: 0 :: 0 ::
      1 :: 0 :: 1 :: 0 ::
      (r % 256) :: (r / 256 % 256) :: (r / 65536 % 256) ::
      (r / 16777216 % 256) ::
      (r * 2 % 256) :: (r * 2 / 256 % 256) :: (r * 2 / 65536 % 256) ::
      (r * 2 / 16777216 % 256) ::
      2 :: 0 :: 16 :: 0 ::
      100 :: 97 :: 116 :: 97 ::
      (samples.flatten.length * 2 % 256) ::
      (samples.flatten.length * 2 / 256 % 256) ::
      (samples.flatten.length * 2 / 65536 % 256) ::
      (samples.flatten.length * 2 / 16777216 % 256) ::
      floatTo16BitPCM samples.flatten := rfl

theorem encodeWAV_length (samples : List (List ℚ)) (r : ℕ) :
    (encodeWAV samples r).length = 44 + 2 * totalSamples samples := by
  rw [encodeWAV_cons]
  simp [floatTo16BitPCM_length, totalSamples_eq_length_flatten]
  omega

theorem encodeWAV_field_4 (samples : List (List ℚ)) (r : ℕ) :
    readU32LE (encodeWAV samples r) 4 =
      (36 + samples.flatten.length * 2) % 256
      + 256 * ((36 + samples.flatten.length * 2) / 256 % 256)
      + 65536 * ((36 + samples.flatten.length * 2) / 65536 % 256
        + 256 * ((36 + samples.flatten.length * 2) / 16777216 % 256)) := by
  rw [encodeWAV_cons]; rfl

theorem encodeWAV_field_24 (samples : List (List ℚ)) (r : ℕ) :
    readU32LE (encodeWAV samples r) 24 =
      r % 256 + 256 * (r / 256 % 256)
      + 65536 * (r / 65536 % 256 + 256 * (r / 16777216 % 256)) := by
  rw [encodeWAV_cons]; rfl

theorem encodeWAV_field_40 (samples : List (List ℚ)) (r : ℕ) :
    readU32LE (encodeWAV samples r) 40 =
      samples.flatten.length * 2 % 256
      + 256 * (samples.flatten.length * 2 / 256 % 256)
      + 65536 * (samples.flatten.length * 2 / 65536 % 256
        + 256 * (samples.flatten.length * 2 / 16777216 % 256)) := by
  rw [encodeWAV_cons]; rfl

theorem uint32LE_roundtrip (v : ℕ) (h : v < 4294967296) :
    v % 256 + 256 * (v / 256 % 256)
      + 65536 * (v / 65536 % 256 + 256 * (v / 16777216 % 256)) = v := by
  omega

/-! ### Lemmas about the session state machine -/

theorem stopRecording_of_not_recording (s : RecState)
    (h : s.isRecordingRef = false) : stopRecording s = s := by
  rw [stopRecording, h]
  rfl

theorem stopRecording_fields (s : RecState) (h : s.isRecordingRef = true) :
    (stopRecording s).isRecordingRef = false ∧
    (stopRecording s).isRecording = false ∧
    (stopRecording s).timer = none ∧
    (stopRecording s).chunks = s.chunks ∧
    (stopRecording s).audioBlob = some (encodeWAV s.chunks 16000) ∧
    (stopRecording s).error = s.error ∧
    (stopRecording s).blobEmits = s.blobEmits + 1 ∧
    (stopRecording s).errorEmits = s.errorEmits ∧
    (stopRecording s).releases
      = s.releases + (if s.streamRef.isSome then 1 else 0) ∧
    (stopRecording s).audioStream = none := by
  rcases hp : s.processorRef with _ | p <;>
    rcases hc : s.audioContextRef with _ | c <;>
    rcases hs : s.streamRef with _ | st <;>
    simp [stopRecording, h, hp, hc, hs]

theorem run_nil (s : RecState) : run [] s = s := rfl

theorem run_cons (e : Ev) (evs : List Ev) (s : RecState) :
    run (e :: evs) s = run evs (step s e) := rfl

theorem run_append (evs1 evs2 : List Ev) (s : RecState) :
    run (evs1 ++ evs2) s = run evs2 (run evs1 s) := by
  rw [run, run, run, List.foldl_append]

/-- Once the session is inactive with no armed timer, every further event
is a strict no-op. -/
theorem run_inactive (evs : List Ev) (s : RecState)
    (h1 : s.isRecordingRef = false) (h2 : s.timer = none) :
    run evs s = s := by
  induction evs with
  | nil => rfl
  | cons e rest ih =>
      rw [run_cons]
      have hstep : step s e = s := by
        cases e with
        | frame f => simp [step, deliverFrame, h1]
        | stop => exact stopRecording_of_not_recording s h1
        | timer => simp [step, timerFire, h2]
      rw [hstep]
      exact ih

theorem framesBeforeCut_nil : framesBeforeCut [] = [] := rfl

theorem framesBeforeCut_frame (f : List ℚ) (evs : List Ev) :
    framesBeforeCut (Ev.frame f :: evs) = f :: framesBeforeCut evs := by
  simp [framesBeforeCut, List.takeWhile, isStopLike, frameOf]

theorem framesBeforeCut_stop (evs : List Ev) :
    framesBeforeCut (Ev.stop :: evs) = [] := rfl

theorem framesBeforeCut_timer (evs : List Ev) :
    framesBeforeCut (Ev.timer :: evs) = [] := rfl

/-- Master lemma for a session that is Active with an armed timer: the run
of any event sequence emits a completion exactly when the sequence contains
a stop or a timeout, releases the device at most once, appends exactly the
frames delivered before the first stop-like event, and hands exactly that
buffer to the encoder. -/
theorem run_active (evs : List Ev) (s : RecState) (d : ℕ)
    (h1 : s.isRecordingRef = true) (h2 : s.timer = some d) :
    (run evs s).blobEmits
        = s.blobEmits + (if evs.any isStopLike then 1 else 0) ∧
    (run evs s).errorEmits = s.errorEmits ∧
    (run evs s).error = s.error ∧
    (run evs s).releases = s.releases
        + (if evs.any isStopLike then (if s.streamRef.isSome then 1 else 0)
           else 0) ∧
    (run evs s).chunks = s.chunks ++ framesBeforeCut evs ∧
    (evs.any isStopLike = true →
      (run evs s).audioBlob
          = some (encodeWAV (s.chunks ++ framesBeforeCut evs) 16000) ∧
      (run evs s).isRecordingRef = false) ∧
    (evs.any isStopLike = false →
      run evs s = { s with chunks := s.chunks ++ framesBeforeCut evs }) := by
  induction evs generalizing s with
  | nil =>
      simp [run_nil, framesBeforeCut_nil]
  | cons e rest ih =>
      cases e with
      | frame f =>
          rw [run_cons]
          have hstep : step s (Ev.frame f)
              = { s with chunks := s.chunks ++ [f] } := by
            simp [step, deliverFrame, h1]
          rw [hstep]
          have := ih { s with chunks := s.chunks ++ [f] } h1 h2
          simpa [framesBeforeCut_frame, isStopLike, List.any_cons,
            List.append_assoc] using this
      | stop =>
          rw [run_cons]
          have hstep : step s Ev.stop = stopRecording s := rfl
          rw [hstep]
          obtain ⟨f1, f2, f3, f4, f5, f6, f7, f8, f9, f10⟩ :=
            stopRecording_fields s h1
          rw [run_inactive rest (stopRecording s) f1 f3]
          simp [List.any_cons, isStopLike, framesBeforeCut_stop, f1, f4, f5,
            f6, f7, f8, f9]
      | timer =>
          rw [run_cons]
          have hstep : step s Ev.timer = stopRecording s := by
            simp [step, timerFire, h2, h1]
          rw [hstep]
          obtain ⟨f1, f2, f3, f4, f5, f6, f7, f8, f9, f10⟩ :=
            stopRecording_fields s h1
          rw [run_inactive rest (stopRecording s) f1 f3]
          simp [List.any_cons, isStopLike, framesBeforeCut_timer, f1, f4, f5,
            f6, f7, f8, f9]

/-! ### Clamp lemmas -/

theorem neg_one_le_clamp (s : ℚ) : -1 ≤ clamp s := le_max_left _ _

theorem clamp_le_one (s : ℚ) : clamp s ≤ 1 :=
  max_le (by norm_num) (min_le_left _ _)

theorem clamp_of_mem (s : ℚ) (h1 : -1 ≤ s) (h2 : s ≤ 1) : clamp s = s := by
  rw [clamp, min_eq_right h2, max_eq_right h1]

theorem clamp_of_le (s : ℚ) (h : s ≤ -1) : clamp s = -1 := by
  rw [clamp, min_eq_right (le_trans h (by norm_num)), max_eq_left h]

theorem clamp_of_ge (s : ℚ) (h : 1 ≤ s) : clamp s = 1 := by
  rw [clamp, min_eq_left h, max_eq_right (by norm_num)]

theorem clamp_clamp (s : ℚ) : clamp (clamp s) = clamp s :=
  clamp_of_mem _ (neg_one_le_clamp s) (clamp_le_one s)

/-! ### Claim theorems -/

/-- C1: for every buffer of N total samples (N small enough that the
32-bit size fields cannot wrap, as the `ArrayBuffer` allocation forces in
the source), `encodeWAV` produces exactly 44 + 2N bytes, the `data`
sub-chunk size field at bytes 40–43 decodes to 2N, and the RIFF total size
field at bytes 4–7 decodes to 36 + 2N; in particular the empty buffer
yields a 44-byte container with data size field 0 and total size field
36. -/
theorem C1_container_sizes (samples : List (List ℚ)) (r : ℕ)
    (h : 36 + 2 * totalSamples samples < 4294967296) :
    (encodeWAV samples r).length = 44 + 2 * totalSamples samples ∧
    readU32LE (encodeWAV samples r) 40 = 2 * totalSamples samples ∧
    readU32LE (encodeWAV samples r) 4 = 36 + 2 * totalSamples samples ∧
    (encodeWAV [] r).length = 44 ∧
    readU32LE (encodeWAV [] r) 40 = 0 ∧
    readU32LE (encodeWAV [] r) 4 = 36 := by
  have hN := totalSamples_eq_length_flatten samples
  refine ⟨encodeWAV_length samples r, ?_, ?_, ?_, ?_, ?_⟩
  · rw [encodeWAV_field_40,
      uint32LE_roundtrip (samples.flatten.length * 2) (by omega)]
    omega
  · rw [encodeWAV_field_4,
      uint32LE_roundtrip (36 + samples.flatten.length * 2) (by omega)]
    omega
  · rw [encodeWAV_length]
    rfl
  · rw [encodeWAV_field_40]
    rfl
  · rw [encodeWAV_field_4]
    rfl

/-- Witness for C1 at the concrete three-sample buffer [[1], [0, -1]]. -/
theorem C1_container_sizes_witness :
    36 + 2 * totalSamples [[(1 : ℚ)], [0, -1]] < 4294967296 ∧
    ((encodeWAV [[(1 : ℚ)], [0, -1]] 16000).length
        = 44 + 2 * totalSamples [[(1 : ℚ)], [0, -1]] ∧
     readU32LE (encodeWAV [[(1 : ℚ)], [0, -1]] 16000) 40
        = 2 * totalSamples [[(1 : ℚ)], [0, -1]] ∧
     readU32LE (encodeWAV [[(1 : ℚ)], [0, -1]] 16000) 4
        = 36 + 2 * totalSamples [[(1 : ℚ)], [0, -1]] ∧
     (encodeWAV ([] : List (List ℚ)) 16000).length = 44 ∧
     readU32LE (encodeWAV ([] : List (List ℚ)) 16000) 40 = 0 ∧
     readU32LE (encodeWAV ([] : List (List ℚ)) 16000) 4 = 36) :=
  ⟨by decide, C1_container_sizes [[(1 : ℚ)], [0, -1]] 16000 (by decide)⟩

/-- C2: quantization first clamps to [-1, 1], then scales negative values
by 32768 and non-negative values by 32767 with truncation toward zero;
1.0 encodes to 32767, -1.0 encodes to -32768, and any out-of-range input
encodes the same as its clamped value. -/
theorem C2_quantization :
    quantizeSample 1 = 32767 ∧
    quantizeSample (-1) = -32768 ∧
    (∀ s : ℚ, quantizeSample s = quantizeSample (clamp s)) ∧
    (∀ s : ℚ, s ≤ -1 → quantizeSample s = -32768) ∧
    (∀ s : ℚ, 1 ≤ s → quantizeSample s = 32767) ∧
    (∀ s : ℚ, -1 ≤ s → s < 0 → quantizeSample s = truncRat (s * 32768)) ∧
    (∀ s : ℚ, 0 ≤ s → s ≤ 1 → quantizeSample s = truncRat (s * 32767)) := by
  have hq1 : quantizeSample 1 = 32767 := by
    norm_num [quantizeSample, clamp, truncRat, max_def, min_def]
  have hqm1 : quantizeSample (-1) = -32768 := by
    norm_num [quantizeSample, clamp, truncRat, max_def, min_def]
  refine ⟨hq1, hqm1, ?_, ?_, ?_, ?_, ?_⟩
  · intro s
    rw [quantizeSample, quantizeSample, clamp_clamp]
  · intro s h
    have hc : clamp s = -1 := clamp_of_le s h
    rw [quantizeSample, hc]
    rw [quantizeSample, clamp_of_mem (-1) (by norm_num) (by norm_num)]
      at hqm1
    exact hqm1
  · intro s h
    have hc : clamp s = 1 := clamp_of_ge s h
    rw [quantizeSample, hc]
    rw [quantizeSample, clamp_of_mem 1 (by norm_num) (by norm_num)] at hq1
    exact hq1
  · intro s h1 h2
    have hc : clamp s = s :=
      clamp_of_mem s h1 (le_trans (le_of_lt h2) (by norm_num))
    rw [quantizeSample, hc]
    simp [h2]
  · intro s h1 h2
    have hc : clamp s = s := clamp_of_mem s (le_trans (by norm_num) h1) h2
    rw [quantizeSample, hc]
    simp [not_lt.mpr h1]

/-- Witness for C2 at the concrete inputs 3/2, -3/2, -1/2 and 1/2. -/
theorem C2_quantization_witness :
    quantizeSample (3 / 2) = 32767 ∧
    quantizeSample (-3 / 2) = -32768 ∧
    quantizeSample (-1 / 2) = truncRat (-1 / 2 * 32768) ∧
    quantizeSample (1 / 2) = truncRat (1 / 2 * 32767) :=
  ⟨C2_quantization.2.2.2.2.1 (3 / 2) (by norm_num),
   C2_quantization.2.2.2.1 (-3 / 2) (by norm_num),
   C2_quantization.2.2.2.2.2.1 (-1 / 2) (by norm_num) (by norm_num),
   C2_quantization.2.2.2.2.2.2 (1 / 2) (by norm_num) (by norm_num)⟩

/-- C7: decoding the header fields of the container produced by
`encodeWAV` yields back the sample rate, channel count 1, bit depth 16,
and the original total sample count (under the 32-bit field bounds the
allocation forces in the source). -/
theorem C7_header_roundtrip (samples : List (List ℚ)) (r : ℕ)
    (h1 : r < 4294967296) (h2 : 2 * totalSamples samples < 4294967296) :
    decodeSampleRate (encodeWAV samples r) = r ∧
    decodeNumChannels (encodeWAV samples r) = 1 ∧
    decodeBitsPerSample (encodeWAV samples r) = 16 ∧
    decodeSampleCount (encodeWAV samples r) = totalSamples samples := by
  have hN := totalSamples_eq_length_flatten samples
  refine ⟨?_, ?_, ?_, ?_⟩
  · rw [decodeSampleRate, encodeWAV_field_24, uint32LE_roundtrip r h1]
  · have hch : decodeNumChannels (encodeWAV samples r) = 1 + 256 * 0 := by
      rw [decodeNumChannels, encodeWAV_cons]
      rfl
    rw [hch]
  · have hbi : decodeBitsPerSample (encodeWAV samples r) = 16 + 256 * 0 := by
      rw [decodeBitsPerSample, encodeWAV_cons]
      rfl
    rw [hbi]
  · rw [decodeSampleCount, encodeWAV_field_40,
      uint32LE_roundtrip (samples.flatten.length * 2) (by omega)]
    omega

/-- Witness for C7 at the concrete buffer [[1], [0, -1]] at 16000 Hz. -/
theorem C7_header_roundtrip_witness :
    16000 < 4294967296 ∧
    2 * totalSamples [[(1 : ℚ)], [0, -1]] < 4294967296 ∧
    (decodeSampleRate (encodeWAV [[(1 : ℚ)], [0, -1]] 16000) = 16000 ∧
     decodeNumChannels (encodeWAV [[(1 : ℚ)], [0, -1]] 16000) = 1 ∧
     decodeBitsPerSample (encodeWAV [[(1 : ℚ)], [0, -1]] 16000) = 16 ∧
     decodeSampleCount (encodeWAV [[(1 : ℚ)], [0, -1]] 16000)
        = totalSamples [[(1 : ℚ)], [0, -1]]) :=
  ⟨by decide, by decide,
   C7_header_roundtrip [[(1 : ℚ)], [0, -1]] 16000 (by decide) (by decide)⟩

theorem encodeWAV_field_28 (samples : List (List ℚ)) (r : ℕ) :
    readU32LE (encodeWAV samples r) 28 =
      r * 2 % 256 + 256 * (r * 2 / 256 % 256)
      + 65536 * (r * 2 / 65536 % 256 + 256 * (r * 2 / 16777216 % 256)) := by
  rw [encodeWAV_cons]; rfl

/-- C6 counterexample: at the one-sample buffer [[1]], the output is 46
bytes and ends with the two sample bytes; the `data` sub-chunk size field
sits at bytes 40–43, *before* the samples, so the output is not a 44-byte
header followed by the sample words followed by a size field, as the claim
orders the parts. -/
theorem C6_counterexample :
    (encodeWAV [[(1 : ℚ)]] 16000).length = 46 ∧
    List.drop 44 (encodeWAV [[(1 : ℚ)]] 16000)
      = int16LE (quantizeSample 1) ∧
    List.take 4 (List.drop 40 (encodeWAV [[(1 : ℚ)]] 16000))
      = uint32LE (2 * totalSamples [[(1 : ℚ)]]) ∧
    ¬ (encodeWAV [[(1 : ℚ)]] 16000
        = List.take 44 (encodeWAV [[(1 : ℚ)]] 16000)
          ++ int16LE (quantizeSample 1)
          ++ uint32LE (2 * totalSamples [[(1 : ℚ)]])) := by
  refine ⟨rfl, rfl, rfl, ?_⟩
  intro hEq
  have hlen := congrArg List.length hEq
  rw [List.length_append, List.length_append, List.length_take] at hlen
  have e1 : (encodeWAV [[(1 : ℚ)]] 16000).length = 46 := rfl
  have e2 : (int16LE (quantizeSample 1)).length = 2 := rfl
  have e3 : (uint32LE (2 * totalSamples [[(1 : ℚ)]])).length = 4 := rfl
  rw [e1, e2, e3] at hlen
  omega

/-- C6 (amended): the encoder emits the fixed 44-byte RIFF/WAVE header —
`RIFF` tag, total size, `WAVE` tag, `fmt ` sub-chunk declaring PCM
(format 1), 1 channel, the session's sample rate, byte rate = 2 × rate,
block align 2, 16 bits per sample — ending with the `data` tag and the
`data` sub-chunk size field equal to 2 × sample_count at bytes 36–43
(immediately *preceding* the payload), followed from byte 44 on by the
quantized samples as little-endian 16-bit words. -/
theorem C6_layout (samples : List (List ℚ)) (r : ℕ)
    (h1 : r < 4294967296) (h2 : r * 2 < 4294967296)
    (h3 : 36 + 2 * totalSamples samples < 4294967296) :
    List.take 4 (encodeWAV samples r) = writeString "RIFF" ∧
    readU32LE (encodeWAV samples r) 4 = 36 + 2 * totalSamples samples ∧
    List.take 4 (List.drop 8 (encodeWAV samples r)) = writeString "WAVE" ∧
    List.take 4 (List.drop 12 (encodeWAV samples r)) = writeString "fmt " ∧
    readU32LE (encodeWAV samples r) 16 = 16 ∧
    readU16LE (encodeWAV samples r) 20 = 1 ∧
    readU16LE (encodeWAV samples r) 22 = 1 ∧
    readU32LE (encodeWAV samples r) 24 = r ∧
    readU32LE (encodeWAV samples r) 28 = r * 2 ∧
    readU16LE (encodeWAV samples r) 32 = 2 ∧
    readU16LE (encodeWAV samples r) 34 = 16 ∧
    List.take 4 (List.drop 36 (encodeWAV samples r)) = writeString "data" ∧
    readU32LE (encodeWAV samples r) 40 = 2 * totalSamples samples ∧
    List.drop 44 (encodeWAV samples r)
      = (samples.flatten).flatMap (fun s => int16LE (quantizeSample s)) ∧
    (List.drop 44 (encodeWAV samples r)).length
      = 2 * totalSamples samples := by
  have hN := totalSamples_eq_length_flatten samples
  obtain ⟨hlen, h40, h4, _, _, _⟩ := C1_container_sizes samples r h3
  refine ⟨?_, h4, ?_, ?_, ?_, ?_, ?_, ?_, ?_, ?_, ?_, ?_, h40, ?_, ?_⟩
  · rw [encodeWAV_cons]; rfl
  · rw [encodeWAV_cons]; rfl
  · rw [encodeWAV_cons]; rfl
  · have e : readU32LE (encodeWAV samples r) 16
        = 16 + 256 * 0 + 65536 * (0 + 256 * 0) := by
      rw [encodeWAV_cons]; rfl
    rw [e]
  · have e : readU16LE (encodeWAV samples r) 20 = 1 + 256 * 0 := by
      rw [encodeWAV_cons]; rfl
    rw [e]
  · have e : readU16LE (encodeWAV samples r) 22 = 1 + 256 * 0 := by
      rw [encodeWAV_cons]; rfl
    rw [e]
  · rw [encodeWAV_field_24, uint32LE_roundtrip r h1]
  · rw [encodeWAV_field_28, uint32LE_roundtrip (r * 2) h2]
  · have e : readU16LE (encodeWAV samples r) 32 = 2 + 256 * 0 := by
      rw [encodeWAV_cons]; rfl
    rw [e]
  · have e : readU16LE (encodeWAV samples r) 34 = 16 + 256 * 0 := by
      rw [encodeWAV_cons]; rfl
    rw [e]
  · rw [encodeWAV_cons]; rfl
  · rw [encodeWAV_cons]
    rfl
  · have e : List.drop 44 (encodeWAV samples r)
        = floatTo16BitPCM samples.flatten := by
      rw [encodeWAV_cons]
      rfl
    rw [e, floatTo16BitPCM_length]
    omega

/-- Witness for C6 (amended) at the one-sample buffer [[1]] at 16000 Hz. -/
theorem C6_layout_witness :
    List.take 4 (encodeWAV [[(1 : ℚ)]] 16000) = writeString "RIFF" ∧
    readU32LE (encodeWAV [[(1 : ℚ)]] 16000) 4
      = 36 + 2 * totalSamples [[(1 : ℚ)]] ∧
    List.take 4 (List.drop 8 (encodeWAV [[(1 : ℚ)]] 16000))
      = writeString "WAVE" ∧
    List.take 4 (List.drop 12 (encodeWAV [[(1 : ℚ)]] 16000))
      = writeString "fmt " ∧
    readU32LE (encodeWAV [[(1 : ℚ)]] 16000) 16 = 16 ∧
    readU16LE (encodeWAV [[(1 : ℚ)]] 16000) 20 = 1 ∧
    readU16LE (encodeWAV [[(1 : ℚ)]] 16000) 22 = 1 ∧
    readU32LE (encodeWAV [[(1 : ℚ)]] 16000) 24 = 16000 ∧
    readU32LE (encodeWAV [[(1 : ℚ)]] 16000) 28 = 16000 * 2 ∧
    readU16LE (encodeWAV [[(1 : ℚ)]] 16000) 32 = 2 ∧
    readU16LE (encodeWAV [[(1 : ℚ)]] 16000) 34 = 16 ∧
    List.take 4 (List.drop 36 (encodeWAV [[(1 : ℚ)]] 16000))
      = writeString "data" ∧
    readU32LE (encodeWAV [[(1 : ℚ)]] 16000) 40
      = 2 * totalSamples [[(1 : ℚ)]] ∧
    List.drop 44 (encodeWAV [[(1 : ℚ)]] 16000)
      = ([[(1 : ℚ)]].flatten).flatMap (fun s => int16LE (quantizeSample s)) ∧
    (List.drop 44 (encodeWAV [[(1 : ℚ)]] 16000)).length
      = 2 * totalSamples [[(1 : ℚ)]] :=
  C6_layout [[(1 : ℚ)]] 16000 (by decide) (by decide) (by decide)

/-- C3: per session, exactly one of encoded audio and capture error is
produced.  A successfully started session whose event sequence contains at
least one stop or timeout emits exactly one blob and no error; a session
whose start fails emits exactly one error and no blob, whatever events
follow. -/
theorem C3_exactly_one_outcome (evs : List Ev) (fp : StartFail)
    (hstop : evs.any isStopLike = true) :
    ((run evs (startRecording none initState)).blobEmits = 1 ∧
     (run evs (startRecording none initState)).errorEmits = 0 ∧
     (run evs (startRecording none initState)).audioBlob.isSome = true ∧
     (run evs (startRecording none initState)).error = none) ∧
    ((run evs (startRecording (some fp) initState)).blobEmits = 0 ∧
     (run evs (startRecording (some fp) initState)).errorEmits = 1 ∧
     (run evs (startRecording (some fp) initState)).audioBlob = none ∧
     (run evs (startRecording (some fp) initState)).error
        = some micErrorMsg) := by
  constructor
  · obtain ⟨b, e, er, _, _, hs, _⟩ :=
      run_active evs (startRecording none initState) autoStopDelayMs rfl rfl
    obtain ⟨hblob, _⟩ := hs hstop
    refine ⟨?_, ?_, ?_, ?_⟩
    · rw [b, hstop, if_pos rfl]
      rfl
    · rw [e]
      rfl
    · rw [hblob]
      rfl
    · rw [er]
      rfl
  · cases fp <;>
      rw [run_inactive evs _ rfl rfl] <;>
      exact ⟨rfl, rfl, rfl, rfl⟩

/-- Witness for C3 with the single explicit stop event and a
`getUserMedia` failure. -/
theorem C3_exactly_one_outcome_witness :
    ([Ev.stop].any isStopLike = true) ∧
    (((run [Ev.stop] (startRecording none initState)).blobEmits = 1 ∧
      (run [Ev.stop] (startRecording none initState)).errorEmits = 0 ∧
      (run [Ev.stop] (startRecording none initState)).audioBlob.isSome
        = true ∧
      (run [Ev.stop] (startRecording none initState)).error = none) ∧
     ((run [Ev.stop]
        (startRecording (some StartFail.atGetUserMedia) initState)).blobEmits
          = 0 ∧
      (run [Ev.stop]
        (startRecording (some StartFail.atGetUserMedia) initState)).errorEmits
          = 1 ∧
      (run [Ev.stop]
        (startRecording (some StartFail.atGetUserMedia) initState)).audioBlob
          = none ∧
      (run [Ev.stop]
        (startRecording (some StartFail.atGetUserMedia) initState)).error
          = some micErrorMsg)) :=
  ⟨by decide,
   C3_exactly_one_outcome [Ev.stop] StartFail.atGetUserMedia (by decide)⟩

/-- C4: `stopRecording` on a non-Active session is a strict no-op; it is
idempotent; a timeout firing after a stop is a no-op; a stop of an Active
session emits exactly one completion and releases the device exactly once;
and the two orders of the caller/timeout race each produce exactly one
completion and one release. -/
theorem C4_stop_idempotent :
    (∀ s : RecState, s.isRecordingRef = false → stopRecording s = s) ∧
    (∀ s : RecState, stopRecording (stopRecording s) = stopRecording s) ∧
    (∀ s : RecState, s.isRecordingRef = true →
      timerFire (stopRecording s) = stopRecording s) ∧
    (∀ s : RecState, s.isRecordingRef = true →
      (stopRecording s).blobEmits = s.blobEmits + 1 ∧
      (stopRecording s).releases
        = s.releases + (if s.streamRef.isSome then 1 else 0)) ∧
    (∀ s : RecState, s.isRecordingRef = true → s.streamRef.isSome = true →
      (run [Ev.stop, Ev.timer] s).blobEmits = s.blobEmits + 1 ∧
      (run [Ev.stop, Ev.timer] s).releases = s.releases + 1 ∧
      (run [Ev.timer, Ev.stop] s).blobEmits = s.blobEmits + 1 ∧
      (run [Ev.timer, Ev.stop] s).releases = s.releases + 1) := by
  have p1 : ∀ s : RecState, s.isRecordingRef = false →
      stopRecording s = s := stopRecording_of_not_recording
  have p2 : ∀ s : RecState,
      stopRecording (stopRecording s) = stopRecording s := by
    intro s
    cases h : s.isRecordingRef with
    | false =>
        rw [p1 s h]
        exact p1 s h
    | true => exact p1 _ (stopRecording_fields s h).1
  have p3 : ∀ s : RecState, s.isRecordingRef = true →
      timerFire (stopRecording s) = stopRecording s := by
    intro s h
    have ht : (stopRecording s).timer = none :=
      (stopRecording_fields s h).2.2.1
    rw [timerFire, ht]
  have p4 : ∀ s : RecState, s.isRecordingRef = true →
      (stopRecording s).blobEmits = s.blobEmits + 1 ∧
      (stopRecording s).releases
        = s.releases + (if s.streamRef.isSome then 1 else 0) := by
    intro s h
    exact ⟨(stopRecording_fields s h).2.2.2.2.2.2.1,
           (stopRecording_fields s h).2.2.2.2.2.2.2.2.1⟩
  refine ⟨p1, p2, p3, p4, ?_⟩
  intro s h hstream
  have hrun1 : run [Ev.stop, Ev.timer] s = stopRecording s := by
    show timerFire (stopRecording s) = stopRecording s
    exact p3 s h
  have hrun2 : run [Ev.timer, Ev.stop] s = stopRecording s := by
    cases ht : s.timer with
    | none =>
        show stopRecording (timerFire s) = stopRecording s
        rw [timerFire, ht]
    | some d =>
        show stopRecording (timerFire s) = stopRecording s
        rw [timerFire, ht]
        simp only [h, if_pos]
        exact p2 s
  rw [hrun1, hrun2]
  obtain ⟨hb, hr⟩ := p4 s h
  rw [hstream, if_pos rfl] at hr
  exact ⟨hb, hr, hb, hr⟩

/-- Witness for C4 at the concrete freshly started session state. -/
theorem C4_stop_idempotent_witness :
    (startRecording none initState).isRecordingRef = true ∧
    (startRecording none initState).streamRef.isSome = true ∧
    stopRecording (stopRecording (startRecording none initState))
      = stopRecording (startRecording none initState) ∧
    (run [Ev.stop, Ev.timer] (startRecording none initState)).blobEmits
      = (startRecording none initState).blobEmits + 1 ∧
    (run [Ev.stop, Ev.timer] (startRecording none initState)).releases
      = (startRecording none initState).releases + 1 ∧
    (run [Ev.timer, Ev.stop] (startRecording none initState)).blobEmits
      = (startRecording none initState).blobEmits + 1 ∧
    (run [Ev.timer, Ev.stop] (startRecording none initState)).releases
      = (startRecording none initState).releases + 1 :=
  ⟨rfl, rfl,
   C4_stop_idempotent.2.1 (startRecording none initState),
   (C4_stop_idempotent.2.2.2.2 (startRecording none initState) rfl rfl).1,
   (C4_stop_idempotent.2.2.2.2 (startRecording none initState) rfl rfl).2.1,
   (C4_stop_idempotent.2.2.2.2
      (startRecording none initState) rfl rfl).2.2.1,
   (C4_stop_idempotent.2.2.2.2
      (startRecording none initState) rfl rfl).2.2.2⟩

/-- C5: from an Active session with an armed timer, the chunk buffer after
any interleaved delivery sequence is exactly the previous buffer extended
by the frames delivered before the first stop-like event — every later
frame is dropped — and when a stop occurs, exactly that prefix buffer is
handed to the encoder. -/
theorem C5_prefix_cut (evs : List Ev) (s : RecState) (d : ℕ)
    (h1 : s.isRecordingRef = true) (h2 : s.timer = some d) :
    (run evs s).chunks = s.chunks ++ framesBeforeCut evs ∧
    (evs.any isStopLike = true →
      (run evs s).audioBlob
        = some (encodeWAV (s.chunks ++ framesBeforeCut evs) 16000)) := by
  obtain ⟨_, _, _, _, ch, hs, _⟩ := run_active evs s d h1 h2
  exact ⟨ch, fun h => (hs h).1⟩

/-- Witness for C5: a frame, then a stop, then a late frame; the late
frame is absent from the buffer and from the encoded blob. -/
theorem C5_prefix_cut_witness :
    (startRecording none initState).isRecordingRef = true ∧
    (startRecording none initState).timer = some autoStopDelayMs ∧
    (run [Ev.frame [(1 : ℚ)], Ev.stop, Ev.frame [(0 : ℚ)]]
        (startRecording none initState)).chunks
      = (startRecording none initState).chunks
        ++ framesBeforeCut [Ev.frame [(1 : ℚ)], Ev.stop,
            Ev.frame [(0 : ℚ)]] ∧
    (run [Ev.frame [(1 : ℚ)], Ev.stop, Ev.frame [(0 : ℚ)]]
        (startRecording none initState)).audioBlob
      = some (encodeWAV ((startRecording none initState).chunks
          ++ framesBeforeCut [Ev.frame [(1 : ℚ)], Ev.stop,
              Ev.frame [(0 : ℚ)]]) 16000) :=
  ⟨rfl, rfl,
   (C5_prefix_cut [Ev.frame [(1 : ℚ)], Ev.stop, Ev.frame [(0 : ℚ)]]
      (startRecording none initState) autoStopDelayMs rfl rfl).1,
   (C5_prefix_cut [Ev.frame [(1 : ℚ)], Ev.stop, Ev.frame [(0 : ℚ)]]
      (startRecording none initState) autoStopDelayMs rfl rfl).2
     (by decide)⟩

/-- C8 counterexample: when `getUserMedia` succeeds but the `AudioContext`
constructor throws, the catch block surfaces the error yet leaves the
already-acquired stream live — resources remain held, refuting the claim
for failures after the first acquisition step. -/
theorem C8_counterexample :
    ¬ noResourcesHeld
        (startRecording (some StartFail.atAudioContext) initState) ∧
    (startRecording (some StartFail.atAudioContext) initState).streamRef
      = some true ∧
    (startRecording (some StartFail.atAudioContext) initState).error
      = some micErrorMsg ∧
    (startRecording (some StartFail.atAudioContext) initState).errorEmits
      = 1 := by
  refine ⟨?_, rfl, rfl, rfl⟩
  intro h
  exact h.1 rfl

/-- C8 (amended): a failure at `getUserMedia` itself surfaces the
capture-unavailable error exactly once, clears the recording flags and
leaves no resources held; when a later setup step throws, the error is
still surfaced exactly once and the flags cleared, but the resources
acquired before the throw (the stream, and the audio context for failures
after its construction) remain held. -/
theorem C8_start_failure (s : RecState) (h : noResourcesHeld s) :
    (noResourcesHeld (startRecording (some StartFail.atGetUserMedia) s) ∧
     (startRecording (some StartFail.atGetUserMedia) s).error
        = some micErrorMsg ∧
     (startRecording (some StartFail.atGetUserMedia) s).errorEmits
        = s.errorEmits + 1 ∧
     (startRecording (some StartFail.atGetUserMedia) s).blobEmits
        = s.blobEmits ∧
     (startRecording (some StartFail.atGetUserMedia) s).isRecordingRef
        = false ∧
     (startRecording (some StartFail.atGetUserMedia) s).isRecording
        = false) ∧
    ((startRecording (some StartFail.atAudioContext) s).streamRef
        = some true ∧
     (startRecording (some StartFail.atAudioContext) s).error
        = some micErrorMsg ∧
     (startRecording (some StartFail.atAudioContext) s).errorEmits
        = s.errorEmits + 1 ∧
     (startRecording (some StartFail.atAudioContext) s).isRecordingRef
        = false) ∧
    ((startRecording (some StartFail.atSetup) s).streamRef = some true ∧
     (startRecording (some StartFail.atSetup) s).audioContextRef
        = some true ∧
     (startRecording (some StartFail.atSetup) s).error = some micErrorMsg ∧
     (startRecording (some StartFail.atSetup) s).errorEmits
        = s.errorEmits + 1 ∧
     (startRecording (some StartFail.atSetup) s).isRecordingRef
        = false) := by
  obtain ⟨hs, hc, hp, ha⟩ := h
  exact ⟨⟨⟨hs, hc, hp, ha⟩, rfl, rfl, rfl, rfl, rfl⟩,
         ⟨rfl, rfl, rfl, rfl⟩,
         ⟨rfl, rfl, rfl, rfl, rfl⟩⟩

/-- Witness for C8 (amended) at the hook's initial state. -/
theorem C8_start_failure_witness :
    noResourcesHeld initState ∧
    noResourcesHeld
      (startRecording (some StartFail.atGetUserMedia) initState) ∧
    (startRecording (some StartFail.atGetUserMedia) initState).errorEmits
      = initState.errorEmits + 1 ∧
    (startRecording (some StartFail.atSetup) initState).streamRef
      = some true ∧
    (startRecording (some StartFail.atSetup) initState).audioContextRef
      = some true :=
  ⟨by decide,
   (C8_start_failure initState (by decide)).1.1,
   (C8_start_failure initState (by decide)).1.2.2.1,
   (C8_start_failure initState (by decide)).2.2.1,
   (C8_start_failure initState (by decide)).2.2.2.1⟩

/-- C9: the timer armed by a successful start is the fixed 3000 ms
ceiling; a timeout firing on an Active session invokes exactly
`stopRecording`, the same path as an explicit stop; and after any
frame-only delivery sequence the armed timeout completes the session
through the normal completion path with exactly one emitted blob. -/
theorem framesBeforeCut_append_timer (evs : List Ev)
    (h : evs.any isStopLike = false) :
    framesBeforeCut (evs ++ [Ev.timer]) = framesBeforeCut evs := by
  induction evs with
  | nil => rfl
  | cons e rest ih =>
      rw [List.any_cons] at h
      cases e with
      | frame f =>
          have h2 : rest.any isStopLike = false := by
            simp only [isStopLike, Bool.false_or] at h
            exact h
          rw [List.cons_append, framesBeforeCut_frame,
            framesBeforeCut_frame, ih h2]
      | stop => simp [isStopLike] at h
      | timer => simp [isStopLike] at h

theorem C9_auto_stop (evs : List Ev)
    (hframes : evs.any isStopLike = false) :
    autoStopDelayMs = 3000 ∧
    (startRecording none initState).timer = some autoStopDelayMs ∧
    (∀ s : RecState, ∀ d : ℕ, s.timer = some d → s.isRecordingRef = true →
      timerFire s = stopRecording s) ∧
    (run (evs ++ [Ev.timer]) (startRecording none initState)).isRecordingRef
      = false ∧
    (run (evs ++ [Ev.timer]) (startRecording none initState)).blobEmits
      = 1 ∧
    (run (evs ++ [Ev.timer]) (startRecording none initState)).audioBlob
      = some (encodeWAV (framesBeforeCut evs) 16000) := by
  have hany : (evs ++ [Ev.timer]).any isStopLike = true := by
    rw [List.any_append, hframes]
    rfl
  have hcut : framesBeforeCut (evs ++ [Ev.timer]) = framesBeforeCut evs :=
    framesBeforeCut_append_timer evs hframes
  obtain ⟨b, _, _, _, _, hs, _⟩ :=
    run_active (evs ++ [Ev.timer]) (startRecording none initState)
      autoStopDelayMs rfl rfl
  obtain ⟨hblob, hrec⟩ := hs hany
  refine ⟨rfl, rfl, ?_, hrec, ?_, ?_⟩
  · intro s d ht h
    rw [timerFire, ht]
    simp only [h, if_pos]
  · rw [b, hany, if_pos rfl]
    rfl
  · rw [hblob, hcut]
    rfl

/-- Witness for C9 with a single delivered frame before the timeout. -/
theorem C9_auto_stop_witness :
    ([Ev.frame [(1 : ℚ)]].any isStopLike = false) ∧
    autoStopDelayMs = 3000 ∧
    timerFire (startRecording none initState)
      = stopRecording (startRecording none initState) ∧
    (run ([Ev.frame [(1 : ℚ)]] ++ [Ev.timer])
        (startRecording none initState)).isRecordingRef = false ∧
    (run ([Ev.frame [(1 : ℚ)]] ++ [Ev.timer])
        (startRecording none initState)).blobEmits = 1 ∧
    (run ([Ev.frame [(1 : ℚ)]] ++ [Ev.timer])
        (startRecording none initState)).audioBlob
      = some (encodeWAV (framesBeforeCut [Ev.frame [(1 : ℚ)]]) 16000) :=
  ⟨by decide,
   (C9_auto_stop [Ev.frame [(1 : ℚ)]] (by decide)).1,
   (C9_auto_stop [Ev.frame [(1 : ℚ)]] (by decide)).2.2.1
     (startRecording none initState) autoStopDelayMs rfl rfl,
   (C9_auto_stop [Ev.frame [(1 : ℚ)]] (by decide)).2.2.2.1,
   (C9_auto_stop [Ev.frame [(1 : ℚ)]] (by decide)).2.2.2.2.1,
   (C9_auto_stop [Ev.frame [(1 : ℚ)]] (by decide)).2.2.2.2.2⟩

/-- C10: every `startRecording` call resets, before attempting device
acquisition, the exposed error to null, the exposed blob to null and the
chunk buffer to empty; consequently no execution path of the call exposes
a previous session's blob or error — the blob is null on every path, and
the error is null on the success path and freshly produced on the failure
paths. -/
theorem C10_start_resets (s : RecState) (fp : StartFail) :
    (startReset s).error = none ∧
    (startReset s).audioBlob = none ∧
    (startReset s).chunks = [] ∧
    (startRecording none s).audioBlob = none ∧
    (startRecording none s).error = none ∧
    (startRecording none s).chunks = [] ∧
    (startRecording (some fp) s).audioBlob = none ∧
    (startRecording (some fp) s).error = some micErrorMsg := by
  cases fp <;> exact ⟨rfl, rfl, rfl, rfl, rfl, rfl, rfl, rfl⟩

end AudioRecorder
